import Mathlib

/-!
# Verification of the techdio-web waitlist submission pipeline

A shallow embedding, in Lean 4, of the core logic of `src/api/waitlist.js`
(mirrored by the express server in `src/unnamed/part_000`): email validation,
per-identity in-memory rate limiting, the submission handler's validation
pipeline, the ledger (Notion) payload construction, and the mapping of
upstream outcomes to client-facing responses.

Modelling choices:
* Timestamps (`Date.now()` milliseconds) are `Nat`.  The only arithmetic the
  code performs on them is `now - firstSubmission > RATE_LIMIT_WINDOW`; for
  `now < firstSubmission` JavaScript yields a negative number and the
  comparison is false, and `Nat` truncated subtraction yields `0` with the
  comparison likewise false, so the embedding is faithful on the comparison.
* The `Map` of `submissionTracker` is an association list with
  update-in-place semantics (`setEntry`), observed only through `getEntry`.
* JSON body fields are `Option String` (`none` = absent/undefined); the
  JavaScript falsiness test `!email` on such a field is `none` or `some ""`.
* The upstream `axios.post` is an oracle parameter `Upstream`: the handler
  either never reaches the call (returning `call = none`) or reaches it and
  maps the oracle's outcome through the `catch` block of the source.
-/

namespace Waitlist

/-- `RATE_LIMIT_WINDOW = 15 * 60 * 1000` (milliseconds) from the source. -/
def RATE_LIMIT_WINDOW : Nat := 15 * 60 * 1000

/-- `MAX_SUBMISSIONS_PER_EMAIL = 3` from the source. -/
def MAX_SUBMISSIONS_PER_EMAIL : Nat := 3

/-- The character class `\s` of a JavaScript regular expression:
space, `\t`, `\n`, `\v`, `\f`, `\r`, NBSP, and the Unicode space
separators, line/paragraph separators, and the BOM. -/
def jsWhitespace (c : Char) : Bool :=
  c = ' ' || c = '\t' || c = '\n' || c.toNat = 11 || c.toNat = 12 || c = '\r' ||
  c.toNat = 0xa0 || c.toNat = 0x1680 ||
  (0x2000 ≤ c.toNat && c.toNat ≤ 0x200a) ||
  c.toNat = 0x2028 || c.toNat = 0x2029 || c.toNat = 0x202f ||
  c.toNat = 0x205f || c.toNat = 0x3000 || c.toNat = 0xfeff

/-- A character matched by the regex class `[^\s@]`. -/
def isAtom (c : Char) : Bool := !jsWhitespace c && c ≠ '@'

/-- Split a character list at the first occurrence of `c`: returns the part
strictly before it and the part strictly after it, or `none` when `c` does
not occur. -/
def splitAtChar (c : Char) : List Char → Option (List Char × List Char)
  | [] => none
  | x :: xs =>
    if x = c then some ([], xs)
    else (splitAtChar c xs).map (fun p => (x :: p.1, p.2))

/-- `validateEmail` from the source: `/^[^\s@]+@[^\s@]+\.[^\s@]+$/.test(email)`.

The anchored regex matches `s` exactly when `s` decomposes as
`a ++ "@" ++ b ++ "." ++ c` with `a`, `b`, `c` non-empty strings of `[^\s@]`
characters.  Since every character of `a`, `b` and `c` is distinct from `@`,
such a decomposition forces the `@` to be the unique `@` of `s`; writing
`pre`/`post` for the parts before/after that unique `@`, the decomposition
exists iff `pre` is non-empty and `@`-free and whitespace-free, and
`post = b ++ "." ++ c` — that is, `post` is `@`-free and whitespace-free and
contains a `.` at some position that is neither its first nor its last
character (the `.` of the regex is a literal; `b` and `c` may themselves
contain further dots, as `[^\s@]` matches `.`). -/
def validateEmail (s : String) : Bool :=
  match splitAtChar '@' s.data with
  | none => false
  | some (pre, post) =>
    !pre.isEmpty && pre.all isAtom &&
    !post.contains '@' && !post.isEmpty &&
    post.all (fun c => !jsWhitespace c) &&
    ((post.drop 1).dropLast).contains '.'

/-- One entry of `submissionTracker`: `{ count, firstSubmission }`. -/
structure RateEntry where
  count : Nat
  firstSubmission : Nat
deriving DecidableEq

/-- The in-memory `submissionTracker` `Map`, as an association list. -/
def Tracker := List (String × RateEntry)

instance : DecidableEq Tracker := by
  unfold Tracker; infer_instance

/-- `submissionTracker.get(k)`. -/
def getEntry (k : String) : Tracker → Option RateEntry
  | [] => none
  | (k', v) :: rest => if k' = k then some v else getEntry k rest

/-- `submissionTracker.set(k, v)` (overwrite in place, append if absent);
also models the in-place mutation `emailData.count++`, which leaves the
map holding the mutated object under the same key. -/
def setEntry (k : String) (v : RateEntry) : Tracker → Tracker
  | [] => [(k, v)]
  | (k', v') :: rest =>
    if k' = k then (k, v) :: rest else (k', v') :: setEntry k v rest

/-- `isRateLimited(email)` from the source, with the implicit state passed
explicitly: returns the boolean result and the updated tracker.

```js
const emailData = submissionTracker.get(email);
if (!emailData) { set(email, {count: 1, firstSubmission: now}); return false; }
if (now - emailData.firstSubmission > RATE_LIMIT_WINDOW) {
  set(email, {count: 1, firstSubmission: now}); return false; }
if (emailData.count >= MAX_SUBMISSIONS_PER_EMAIL) { return true; }
emailData.count++; return false;
``` -/
def isRateLimited (now : Nat) (m : Tracker) (email : String) : Bool × Tracker :=
  match getEntry email m with
  | none => (false, setEntry email ⟨1, now⟩ m)
  | some e =>
    if now - e.firstSubmission > RATE_LIMIT_WINDOW then
      (false, setEntry email ⟨1, now⟩ m)
    else if e.count ≥ MAX_SUBMISSIONS_PER_EMAIL then
      (true, m)
    else
      (false, setEntry email ⟨e.count + 1, e.firstSubmission⟩ m)

/-- Trackers reachable from the empty map by repeated `isRateLimited` calls,
at arbitrary times and for arbitrary identities. -/
inductive ReachableTracker : Tracker → Prop
  | empty : ReachableTracker []
  | step {m : Tracker} (now : Nat) (email : String) :
      ReachableTracker m → ReachableTracker (isRateLimited now m email).2

/-- A client-facing response: HTTP status plus the JSON body
`{ success, message }`. -/
structure Response where
  status : Nat
  success : Bool
  message : String
deriving DecidableEq

/-- The four payload fields of `notionPayload.properties`:
`Name` (title, set to the email), `Email` (email-typed, the email),
`Role` (single-select, the role), `SubmitAt` (date, the date string). -/
structure NotionProps where
  nameTitle : String
  email : String
  roleSelect : String
  dateStart : String
deriving DecidableEq

/-- The outbound `axios.post` request: target database, payload properties,
and the request timeout in milliseconds. -/
structure NotionRequest where
  databaseId : String
  props : NotionProps
  timeoutMs : Nat
deriving DecidableEq

/-- Outcome of the awaited remote call, as an oracle: either it resolves, or
it rejects with a structured error response (`error.response.status` and the
response body `error.response.data`), or it rejects with
`error.code === 'ECONNABORTED'` (timeout), or it rejects with no response
received at all. -/
inductive Upstream where
  | success
  | errorResponse (status : Nat) (data : String)
  | timeout
  | noResponse
deriving DecidableEq

/-- The apostrophe character, to keep source message strings verbatim. -/
def apostrophe : Char := Char.ofNat 39

/-- The success message `'Successfully added to waitlist! We\'ll be in touch soon.'`. -/
def successMessage : String :=
  "Successfully added to waitlist! We" ++ apostrophe.toString ++
    "ll be in touch soon."

/-- The response produced after the remote call: the success branch
(`res.json({success: true, ...})`, default status 200) or the `catch`
block's `switch (error.response.status)` / `ECONNABORTED` / fallback
branches of the source. -/
def upstreamResponse : Upstream → Response
  | .success => ⟨200, true, successMessage⟩
  | .errorResponse status _ =>
    if status = 400 then
      ⟨400, false, "Invalid request format. Please try again."⟩
    else if status = 401 then
      ⟨500, false, "Server authentication error. Please contact support."⟩
    else if status = 404 then
      ⟨500, false, "Database configuration error. Please contact support."⟩
    else if status = 429 then
      ⟨429, false, "Server is busy. Please try again in a moment."⟩
    else
      ⟨500, false, "Something went wrong. Please try again."⟩
  | .timeout => ⟨408, false, "Request timeout. Please try again."⟩
  | .noResponse =>
    ⟨500, false, "Network error. Please check your connection and try again."⟩

/-- The parsed JSON request body fields the handler destructures.  A field is
`none` when absent; the falsiness test `!email` of the source is `truthy`
below returning `false`. -/
structure ReqBody where
  email : Option String
  role : Option String
deriving DecidableEq

/-- JavaScript truthiness of a string-or-absent JSON field: absent
(`undefined`) and the empty string are falsy. -/
def truthy : Option String → Bool
  | none => false
  | some s => s ≠ ""

/-- Presence of a `process.env` variable as tested by `!process.env.X`:
unset or set to the empty string is falsy. -/
def envPresent : Option String → Bool
  | none => false
  | some s => s ≠ ""

/-- The process environment consumed by the handler:
`NOTION_TOKEN` and `NOTION_DATABASE_ID`. -/
structure Env where
  notionToken : Option String
  notionDatabaseId : Option String
deriving DecidableEq

/-- `email.toLowerCase()`: character-wise lowering (the handler's keys are
ASCII-normalized identities; `Char.toLower` lowers the basic latin range). -/
def jsToLower (s : String) : String := String.mk (s.data.map Char.toLower)

/-- `validRoles` from the source. -/
def validRoles : List String :=
  ["Student / Learner", "Tutor / Teacher", "School / Institute",
   "Developer / Researcher"]

/-- `new Date().toISOString().split('T')[0]`: the prefix of the ISO
timestamp string strictly before its first `T` (the whole string when no
`T` occurs, matching `split`'s first element). -/
def isoDatePart (s : String) : String :=
  String.mk (s.data.takeWhile (fun c => c ≠ 'T'))

/-- Everything the handler produces that the pipeline claims speak about:
the client response, the tracker after the call, and the outbound request
(`none` when the remote call was never made). -/
structure HandlerResult where
  response : Response
  tracker : Tracker
  call : Option NotionRequest
deriving DecidableEq

/-- The submission handler of `src/api/waitlist.js` (the `try`/`catch` body
of the POST path), with state and effects explicit.

`body = none` models `req.body` being `undefined`: destructuring
`const { email, role } = req.body` then throws a `TypeError` inside the
`try` block; the thrown error has neither `error.response` nor
`error.code === 'ECONNABORTED'`, so the `catch` block's final `else`
produces the 500 network-error response, and no remote call is made.

Otherwise the source's checks run in order: missing fields, email syntax,
rate limiting keyed on `email.toLowerCase()`, role membership, environment
credentials; then the Notion payload is built and the remote call made with
a 10000 ms timeout, its outcome mapped by `upstreamResponse`. -/
def handleWaitlist (body : Option ReqBody) (env : Env) (m : Tracker)
    (now : Nat) (isoNow : String) (up : Upstream) : HandlerResult :=
  match body with
  | none =>
    ⟨⟨500, false,
      "Network error. Please check your connection and try again."⟩, m, none⟩
  | some b =>
    if !truthy b.email || !truthy b.role then
      ⟨⟨400, false, "Email and role are required"⟩, m, none⟩
    else
      let email := b.email.getD ""
      let role := b.role.getD ""
      if !validateEmail email then
        ⟨⟨400, false, "Please enter a valid email address"⟩, m, none⟩
      else
        let rl := isRateLimited now m (jsToLower email)
        if rl.1 then
          ⟨⟨429, false, "Too many submissions. Please try again later."⟩,
            rl.2, none⟩
        else if !validRoles.contains role then
          ⟨⟨400, false, "Invalid role selected"⟩, rl.2, none⟩
        else if !envPresent env.notionToken ||
            !envPresent env.notionDatabaseId then
          ⟨⟨500, false, "Server configuration error. Please contact support."⟩,
            rl.2, none⟩
        else
          ⟨upstreamResponse up, rl.2,
            some ⟨env.notionDatabaseId.getD "",
              ⟨email, email, role, isoDatePart isoNow⟩, 10000⟩⟩

/-! ## Rate limiter lemmas -/

theorem getEntry_setEntry (k k' : String) (v : RateEntry) :
    ∀ m : Tracker,
      getEntry k (setEntry k' v m) = if k' = k then some v else getEntry k m
  | [] => by simp [getEntry, setEntry]
  | (a, b) :: rest => by
    by_cases h1 : a = k'
    · subst h1
      by_cases h2 : a = k <;> simp [getEntry, setEntry, h2]
    · by_cases h2 : a = k
      · subst h2
        have hk : ¬ k' = a := fun h => h1 h.symm
        simp [getEntry, setEntry, h1, hk]
      · simp [getEntry, setEntry, h1, h2, getEntry_setEntry k k' v rest]

theorem isRateLimited_none {m : Tracker} {email : String} (now : Nat)
    (hget : getEntry email m = none) :
    isRateLimited now m email = (false, setEntry email ⟨1, now⟩ m) := by
  unfold isRateLimited; rw [hget]

theorem isRateLimited_some {m : Tracker} {email : String} {e : RateEntry}
    (now : Nat) (hget : getEntry email m = some e) :
    isRateLimited now m email =
      if now - e.firstSubmission > RATE_LIMIT_WINDOW then
        (false, setEntry email ⟨1, now⟩ m)
      else if e.count ≥ MAX_SUBMISSIONS_PER_EMAIL then
        (true, m)
      else
        (false, setEntry email ⟨e.count + 1, e.firstSubmission⟩ m) := by
  unfold isRateLimited; rw [hget]

/-- Every entry's count is at most the per-window maximum. -/
def TrackerBounded (m : Tracker) : Prop :=
  ∀ (k : String) (e : RateEntry),
    getEntry k m = some e → e.count ≤ MAX_SUBMISSIONS_PER_EMAIL

theorem trackerBounded_step {m : Tracker} (hm : TrackerBounded m)
    (now : Nat) (email : String) :
    TrackerBounded (isRateLimited now m email).2 := by
  intro k e he
  cases hget : getEntry email m with
  | none =>
    rw [isRateLimited_none now hget] at he
    simp only [getEntry_setEntry] at he
    by_cases hk : email = k
    · simp [hk] at he
      simp [← he, MAX_SUBMISSIONS_PER_EMAIL]
    · simp [hk] at he
      exact hm k e he
  | some e0 =>
    rw [isRateLimited_some now hget] at he
    by_cases hw : now - e0.firstSubmission > RATE_LIMIT_WINDOW
    · rw [if_pos hw] at he
      simp only [getEntry_setEntry] at he
      by_cases hk : email = k
      · simp [hk] at he
        simp [← he, MAX_SUBMISSIONS_PER_EMAIL]
      · simp [hk] at he
        exact hm k e he
    · rw [if_neg hw] at he
      by_cases hc : e0.count ≥ MAX_SUBMISSIONS_PER_EMAIL
      · rw [if_pos hc] at he
        exact hm k e he
      · rw [if_neg hc] at he
        simp only [getEntry_setEntry] at he
        by_cases hk : email = k
        · simp [hk] at he
          have hb := hm email e0 hget
          rw [← he]
          show e0.count + 1 ≤ MAX_SUBMISSIONS_PER_EMAIL
          simp only [MAX_SUBMISSIONS_PER_EMAIL] at hb hc ⊢
          omega
        · simp [hk] at he
          exact hm k e he

/-- C1: for every identity the stored `count` never exceeds
`MAX_SUBMISSIONS_PER_EMAIL` (3): when the stored count is already at the
maximum and `now - firstSubmission` is still within the window,
`isRateLimited` returns `true` and leaves the tracker unchanged; and every
tracker reachable from the empty map by repeated `isRateLimited` calls has
`count ≤ 3` for every key. -/
theorem rateLimit_count_invariant :
    (∀ (m : Tracker) (email : String) (now : Nat) (e : RateEntry),
        getEntry email m = some e →
        MAX_SUBMISSIONS_PER_EMAIL ≤ e.count →
        now - e.firstSubmission ≤ RATE_LIMIT_WINDOW →
        isRateLimited now m email = (true, m)) ∧
    (∀ m : Tracker, ReachableTracker m →
        ∀ (k : String) (e : RateEntry),
          getEntry k m = some e → e.count ≤ MAX_SUBMISSIONS_PER_EMAIL) := by
  constructor
  · intro m email now e h1 h2 h3
    rw [isRateLimited_some now h1,
      if_neg (by omega), if_pos (by omega)]
  · intro m hreach
    induction hreach with
    | empty => intro k e he; simp [getEntry] at he
    | step now email _ ih => exact trackerBounded_step ih now email

/-- C1 witness: a tracker holding count 3 within the window is reported
limited with no mutation, and a concrete reachable tracker is bounded. -/
theorem rateLimit_count_invariant_witness :
    isRateLimited 5 [("i", ⟨3, 0⟩)] "i" = (true, [("i", ⟨3, 0⟩)]) ∧
    (⟨1, 0⟩ : RateEntry).count ≤ MAX_SUBMISSIONS_PER_EMAIL :=
  ⟨rateLimit_count_invariant.1 [("i", ⟨3, 0⟩)] "i" 5 ⟨3, 0⟩ (by decide)
      (by decide) (by decide),
   rateLimit_count_invariant.2 (isRateLimited 0 [] "i").2
      (ReachableTracker.step 0 "i" ReachableTracker.empty) "i" ⟨1, 0⟩
      (by decide)⟩

/-- C2: starting from no entry, with a fixed clock `t0`, the first three
calls return not-limited, the fourth returns limited without mutation, and
a call at `t5` strictly more than the window length after `t0` returns
not-limited with the entry reset to count 1 and window start `t5`. -/
theorem rateLimit_window_scenario (id : String) (t0 t5 : Nat)
    (h : t0 + RATE_LIMIT_WINDOW < t5) :
    (isRateLimited t0 [] id).1 = false ∧
    (isRateLimited t0 (isRateLimited t0 [] id).2 id).1 = false ∧
    (isRateLimited t0 (isRateLimited t0 (isRateLimited t0 [] id).2 id).2
        id).1 = false ∧
    isRateLimited t0 (isRateLimited t0 (isRateLimited t0
        (isRateLimited t0 [] id).2 id).2 id).2 id =
      (true, (isRateLimited t0 (isRateLimited t0
        (isRateLimited t0 [] id).2 id).2 id).2) ∧
    (isRateLimited t5 (isRateLimited t0 (isRateLimited t0
        (isRateLimited t0 [] id).2 id).2 id).2 id).1 = false ∧
    getEntry id (isRateLimited t5 (isRateLimited t0 (isRateLimited t0
        (isRateLimited t0 [] id).2 id).2 id).2 id).2 = some ⟨1, t5⟩ := by
  have e1 : isRateLimited t0 ([] : Tracker) id = (false, [(id, ⟨1, t0⟩)]) := by
    simp [isRateLimited, getEntry, setEntry]
  have e2 : isRateLimited t0 [(id, (⟨1, t0⟩ : RateEntry))] id =
      (false, [(id, ⟨2, t0⟩)]) := by
    simp [isRateLimited, getEntry, setEntry, RATE_LIMIT_WINDOW,
      MAX_SUBMISSIONS_PER_EMAIL]
  have e3 : isRateLimited t0 [(id, (⟨2, t0⟩ : RateEntry))] id =
      (false, [(id, ⟨3, t0⟩)]) := by
    simp [isRateLimited, getEntry, setEntry, RATE_LIMIT_WINDOW,
      MAX_SUBMISSIONS_PER_EMAIL]
  have e4 : isRateLimited t0 [(id, (⟨3, t0⟩ : RateEntry))] id =
      (true, [(id, ⟨3, t0⟩)]) := by
    simp [isRateLimited, getEntry, setEntry, RATE_LIMIT_WINDOW,
      MAX_SUBMISSIONS_PER_EMAIL]
  have e5 : isRateLimited t5 [(id, (⟨3, t0⟩ : RateEntry))] id =
      (false, [(id, ⟨1, t5⟩)]) := by
    have hw : t5 - t0 > RATE_LIMIT_WINDOW := by
      simp only [RATE_LIMIT_WINDOW] at h ⊢; omega
    simp [isRateLimited, getEntry, setEntry, hw]
  rw [e1]
  simp only
  rw [e2]
  simp only
  rw [e3]
  simp only
  rw [e4]
  simp only
  rw [e5]
  simp [getEntry]

/-- C2 witness at a concrete identity and times 0 and 900001. -/
theorem rateLimit_window_scenario_witness :
    0 + RATE_LIMIT_WINDOW < 900001 ∧
    ((isRateLimited 0 [] "user@example.com").1 = false ∧
    (isRateLimited 0 (isRateLimited 0 [] "user@example.com").2
        "user@example.com").1 = false ∧
    (isRateLimited 0 (isRateLimited 0 (isRateLimited 0 []
        "user@example.com").2 "user@example.com").2
        "user@example.com").1 = false ∧
    isRateLimited 0 (isRateLimited 0 (isRateLimited 0
        (isRateLimited 0 [] "user@example.com").2 "user@example.com").2
        "user@example.com").2 "user@example.com" =
      (true, (isRateLimited 0 (isRateLimited 0
        (isRateLimited 0 [] "user@example.com").2 "user@example.com").2
        "user@example.com").2) ∧
    (isRateLimited 900001 (isRateLimited 0 (isRateLimited 0
        (isRateLimited 0 [] "user@example.com").2 "user@example.com").2
        "user@example.com").2 "user@example.com").1 = false ∧
    getEntry "user@example.com" (isRateLimited 900001 (isRateLimited 0
        (isRateLimited 0 (isRateLimited 0 [] "user@example.com").2
        "user@example.com").2 "user@example.com").2
        "user@example.com").2 = some ⟨1, 900001⟩) :=
  ⟨by decide, rateLimit_window_scenario "user@example.com" 0 900001 (by decide)⟩

/-- C10: when the request body is absent, the handler does not return the
MissingFields outcome; the destructuring failure surfaces as the
500 NetworkError response, the tracker is untouched, and no remote call is
made. -/
theorem absent_body_maps_to_network_error (env : Env) (m : Tracker)
    (now : Nat) (iso : String) (up : Upstream) :
    handleWaitlist none env m now iso up =
      ⟨⟨500, false,
        "Network error. Please check your connection and try again."⟩,
        m, none⟩ ∧
    (handleWaitlist none env m now iso up).response ≠
      ⟨400, false, "Email and role are required"⟩ := by
  refine ⟨rfl, ?_⟩
  simp [handleWaitlist]

/-! ## Email validation lemmas -/

theorem contains_true_iff {α : Type} [BEq α] [LawfulBEq α]
    {l : List α} {a : α} : l.contains a = true ↔ a ∈ l := by
  simp [List.contains, List.elem_eq_mem]

theorem contains_false_iff {α : Type} [BEq α] [LawfulBEq α]
    {l : List α} {a : α} : l.contains a = false ↔ a ∉ l := by
  simp [List.contains, List.elem_eq_mem]

theorem splitAtChar_eq_none {c : Char} {xs : List Char} (h : c ∉ xs) :
    splitAtChar c xs = none := by
  induction xs with
  | nil => rfl
  | cons x xs ih =>
    simp only [List.mem_cons, not_or] at h
    simp [splitAtChar, Ne.symm h.1, ih h.2]

theorem splitAtChar_eq_some {c : Char} :
    ∀ {xs p q : List Char}, splitAtChar c xs = some (p, q) →
      xs = p ++ c :: q ∧ c ∉ p := by
  intro xs
  induction xs with
  | nil => intro p q h; simp [splitAtChar] at h
  | cons x xs ih =>
    intro p q h
    by_cases hx : x = c
    · subst hx
      simp [splitAtChar] at h
      obtain ⟨hp, hq⟩ := h
      subst hp; subst hq
      simp
    · simp only [splitAtChar, if_neg hx, Option.map_eq_some'] at h
      obtain ⟨⟨p0, q0⟩, hs, hpq⟩ := h
      obtain ⟨he, hnp⟩ := ih hs
      simp only at hpq
      cases hpq
      refine ⟨by simp [he], ?_⟩
      simp only [List.mem_cons, not_or]
      exact ⟨fun hcx => hx hcx.symm, hnp⟩

theorem splitAtChar_append {c : Char} {a b : List Char} (h : c ∉ a) :
    splitAtChar c (a ++ c :: b) = some (a, b) := by
  induction a with
  | nil => simp [splitAtChar]
  | cons x a ih =>
    simp only [List.mem_cons, not_or] at h
    simp [splitAtChar, Ne.symm h.1, ih h.2]

theorem validateEmail_true_parts {s : String} {pre post : List Char}
    (hsplit : splitAtChar '@' s.data = some (pre, post))
    (hv : validateEmail s = true) :
    pre ≠ [] ∧ (∀ c ∈ pre, isAtom c = true) ∧ '@' ∉ post ∧ post ≠ [] ∧
      (∀ c ∈ post, jsWhitespace c = false) ∧
      '.' ∈ (post.drop 1).dropLast := by
  unfold validateEmail at hv
  rw [hsplit] at hv
  simp only [Bool.and_eq_true] at hv
  obtain ⟨⟨⟨⟨⟨h1, h2⟩, h3⟩, h4⟩, h5⟩, h6⟩ := hv
  refine ⟨?_, ?_, ?_, ?_, ?_, ?_⟩
  · intro hnil; rw [hnil] at h1; simp at h1
  · intro c hc; exact List.all_eq_true.mp h2 c hc
  · rw [Bool.not_eq_true', contains_false_iff] at h3
    exact h3
  · intro hnil; rw [hnil] at h4; simp at h4
  · intro c hc
    have h := List.all_eq_true.mp h5 c hc
    simpa using h
  · exact contains_true_iff.mp h6

/-- C4: the email validator rejects every string containing whitespace,
containing no `@`, containing two or more `@`s, or whose part after the
first `@` contains no `.`; and it accepts every string of the shape
`local@domain.tld` with the three parts non-empty and free of whitespace
and `@`. -/
theorem validateEmail_characterization :
    (∀ s : String, s.data.any jsWhitespace = true → validateEmail s = false) ∧
    (∀ s : String, '@' ∉ s.data → validateEmail s = false) ∧
    (∀ s : String, 2 ≤ s.data.count '@' → validateEmail s = false) ∧
    (∀ (s : String) (pre post : List Char),
        splitAtChar '@' s.data = some (pre, post) → '.' ∉ post →
        validateEmail s = false) ∧
    (∀ l d t : String,
        l.data ≠ [] → (∀ c ∈ l.data, isAtom c = true) →
        d.data ≠ [] → (∀ c ∈ d.data, isAtom c = true) →
        t.data ≠ [] → (∀ c ∈ t.data, isAtom c = true) →
        validateEmail (l ++ "@" ++ d ++ "." ++ t) = true) := by
  refine ⟨?_, ?_, ?_, ?_, ?_⟩
  · intro s hws
    cases hsplit : splitAtChar '@' s.data with
    | none => unfold validateEmail; rw [hsplit]
    | some pq =>
      obtain ⟨pre, post⟩ := pq
      by_contra hv
      rw [Bool.not_eq_false] at hv
      obtain ⟨-, h2, -, -, h5, -⟩ := validateEmail_true_parts hsplit hv
      obtain ⟨heq, -⟩ := splitAtChar_eq_some hsplit
      rw [heq] at hws
      rcases List.any_eq_true.mp hws with ⟨c, hc, hcws⟩
      rcases List.mem_append.mp hc with hcl | hcr
      · have h := h2 c hcl
        simp [isAtom] at h
        exact absurd hcws (by simp [h.1])
      · rcases List.mem_cons.mp hcr with rfl | hcp
        · exact absurd hcws (by decide)
        · exact absurd hcws (by simp [h5 c hcp])
  · intro s h
    unfold validateEmail
    rw [splitAtChar_eq_none h]
  · intro s h
    cases hsplit : splitAtChar '@' s.data with
    | none => unfold validateEmail; rw [hsplit]
    | some pq =>
      obtain ⟨pre, post⟩ := pq
      by_contra hv
      rw [Bool.not_eq_false] at hv
      obtain ⟨-, -, h3, -, -, -⟩ := validateEmail_true_parts hsplit hv
      obtain ⟨heq, hnp⟩ := splitAtChar_eq_some hsplit
      rw [heq, List.count_append] at h
      rw [List.count_eq_zero_of_not_mem hnp, List.count_cons_self] at h
      exact h3 (List.count_pos_iff.mp (by omega))
  · intro s pre post hsplit hdot
    by_contra hv
    rw [Bool.not_eq_false] at hv
    obtain ⟨-, -, -, -, -, h6⟩ := validateEmail_true_parts hsplit hv
    exact hdot (List.drop_subset 1 post (List.dropLast_subset (post.drop 1) h6))
  · intro l d t hl hla hd hda ht hta
    have hdata : (l ++ "@" ++ d ++ "." ++ t).data
        = l.data ++ '@' :: (d.data ++ '.' :: t.data) := by
      have h1 : ("@" : String).data = ['@'] := rfl
      have h2 : ("." : String).data = ['.'] := rfl
      simp [h1, h2]
    have hlat : '@' ∉ l.data := by
      intro hm
      have h := hla '@' hm
      simp [isAtom] at h
    unfold validateEmail
    rw [hdata, splitAtChar_append hlat]
    simp only [Bool.and_eq_true]
    refine ⟨⟨⟨⟨⟨?_, ?_⟩, ?_⟩, ?_⟩, ?_⟩, ?_⟩
    · rw [Bool.not_eq_true', List.isEmpty_eq_false]
      exact hl
    · rw [List.all_eq_true]
      exact fun c hc => hla c hc
    · rw [Bool.not_eq_true', contains_false_iff]
      intro hm
      rcases List.mem_append.mp hm with hm1 | hm2
      · have h := hda '@' hm1; simp [isAtom] at h
      · rcases List.mem_cons.mp hm2 with hc | hm3
        · exact absurd hc (by decide)
        · have h := hta '@' hm3; simp [isAtom] at h
    · rw [Bool.not_eq_true', List.isEmpty_eq_false]
      simp
    · rw [List.all_eq_true]
      intro c hc
      rcases List.mem_append.mp hc with hm1 | hm2
      · have h := hda c hm1
        simp [isAtom] at h
        simp [h.1]
      · rcases List.mem_cons.mp hm2 with rfl | hm3
        · decide
        · have h := hta c hm3
          simp [isAtom] at h
          simp [h.1]
    · rw [contains_true_iff]
      obtain ⟨c0, d0, hd0⟩ := List.exists_cons_of_ne_nil hd
      rw [hd0]
      simp only [List.cons_append, List.drop_succ_cons, List.drop_zero]
      rw [List.dropLast_append_cons, List.dropLast_cons_of_ne_nil ht]
      simp

/-- C4 witness: concrete rejections and a concrete acceptance. -/
theorem validateEmail_characterization_witness :
    validateEmail "a b@c.d" = false ∧
    validateEmail "abc.d" = false ∧
    validateEmail "a@b@c.d" = false ∧
    validateEmail "a@bcd" = false ∧
    validateEmail "a@b.c" = true :=
  ⟨validateEmail_characterization.1 "a b@c.d" (by decide),
   validateEmail_characterization.2.1 "abc.d" (by decide),
   validateEmail_characterization.2.2.1 "a@b@c.d" (by decide),
   validateEmail_characterization.2.2.2.1 "a@bcd" ['a'] ['b', 'c', 'd']
     (by decide) (by decide),
   validateEmail_characterization.2.2.2.2 "a" "b" "c"
     (by decide) (by decide) (by decide) (by decide) (by decide) (by decide)⟩

/-! ## Submission handler theorems -/

/-- C3: the handler runs its checks in the fixed order missing fields,
invalid email, rate limit (keyed on the lower-cased email), invalid role,
missing credentials, short-circuiting at the first failure; the credential
check precedes the remote call (`call = none` in every rejection), and only
when every check passes is the remote call made. -/
theorem validation_order (b : ReqBody) (env : Env) (m : Tracker)
    (now : Nat) (iso : String) (up : Upstream) :
    (truthy b.email = false ∨ truthy b.role = false →
      handleWaitlist (some b) env m now iso up =
        ⟨⟨400, false, "Email and role are required"⟩, m, none⟩) ∧
    (truthy b.email = true → truthy b.role = true →
      validateEmail (b.email.getD "") = false →
      handleWaitlist (some b) env m now iso up =
        ⟨⟨400, false, "Please enter a valid email address"⟩, m, none⟩) ∧
    (truthy b.email = true → truthy b.role = true →
      validateEmail (b.email.getD "") = true →
      (isRateLimited now m (jsToLower (b.email.getD ""))).1 = true →
      handleWaitlist (some b) env m now iso up =
        ⟨⟨429, false, "Too many submissions. Please try again later."⟩,
          (isRateLimited now m (jsToLower (b.email.getD ""))).2, none⟩) ∧
    (truthy b.email = true → truthy b.role = true →
      validateEmail (b.email.getD "") = true →
      (isRateLimited now m (jsToLower (b.email.getD ""))).1 = false →
      validRoles.contains (b.role.getD "") = false →
      handleWaitlist (some b) env m now iso up =
        ⟨⟨400, false, "Invalid role selected"⟩,
          (isRateLimited now m (jsToLower (b.email.getD ""))).2, none⟩) ∧
    (truthy b.email = true → truthy b.role = true →
      validateEmail (b.email.getD "") = true →
      (isRateLimited now m (jsToLower (b.email.getD ""))).1 = false →
      validRoles.contains (b.role.getD "") = true →
      (envPresent env.notionToken = false ∨
        envPresent env.notionDatabaseId = false) →
      handleWaitlist (some b) env m now iso up =
        ⟨⟨500, false, "Server configuration error. Please contact support."⟩,
          (isRateLimited now m (jsToLower (b.email.getD ""))).2, none⟩) ∧
    (truthy b.email = true → truthy b.role = true →
      validateEmail (b.email.getD "") = true →
      (isRateLimited now m (jsToLower (b.email.getD ""))).1 = false →
      validRoles.contains (b.role.getD "") = true →
      envPresent env.notionToken = true →
      envPresent env.notionDatabaseId = true →
      handleWaitlist (some b) env m now iso up =
        ⟨upstreamResponse up,
          (isRateLimited now m (jsToLower (b.email.getD ""))).2,
          some ⟨env.notionDatabaseId.getD "",
            ⟨b.email.getD "", b.email.getD "", b.role.getD "",
              isoDatePart iso⟩, 10000⟩⟩) := by
  refine ⟨?_, ?_, ?_, ?_, ?_, ?_⟩
  · rintro (h | h) <;> simp [handleWaitlist, h]
  · intro h1 h2 h3
    simp [handleWaitlist, h1, h2, h3]
  · intro h1 h2 h3 h4
    simp [handleWaitlist, h1, h2, h3, h4]
  · intro h1 h2 h3 h4 h5
    rw [contains_false_iff] at h5
    simp [handleWaitlist, h1, h2, h3, h4, h5]
  · rintro h1 h2 h3 h4 h5 (h6 | h6) <;>
      · rw [contains_true_iff] at h5
        simp [handleWaitlist, h1, h2, h3, h4, h5, h6]
  · intro h1 h2 h3 h4 h5 h6 h7
    rw [contains_true_iff] at h5
    simp [handleWaitlist, h1, h2, h3, h4, h5, h6, h7]

/-- C3 witness: a request missing its email is rejected as MissingFields. -/
theorem validation_order_witness :
    handleWaitlist (some ⟨none, some "Student / Learner"⟩) ⟨none, none⟩ []
        0 "" .success =
      ⟨⟨400, false, "Email and role are required"⟩, [], none⟩ :=
  (validation_order ⟨none, some "Student / Learner"⟩ ⟨none, none⟩ [] 0 ""
    .success).1 (Or.inl (by decide))

/-- Either the handler never reaches the remote call, or its response is the
mapped upstream outcome and the call carries the Notion payload built from
the submitted fields. -/
theorem handleWaitlist_call_spec (body : Option ReqBody) (env : Env)
    (m : Tracker) (now : Nat) (iso : String) (up : Upstream) :
    (handleWaitlist body env m now iso up).call = none ∨
    ((handleWaitlist body env m now iso up).response = upstreamResponse up ∧
      ∃ b : ReqBody, body = some b ∧
        (handleWaitlist body env m now iso up).call =
          some ⟨env.notionDatabaseId.getD "",
            ⟨b.email.getD "", b.email.getD "", b.role.getD "",
              isoDatePart iso⟩, 10000⟩) := by
  cases body with
  | none => left; rfl
  | some b =>
    by_cases h1 : (!truthy b.email || !truthy b.role) = true
    · left; simp [handleWaitlist, h1]
    · by_cases h2 : validateEmail (b.email.getD "") = true
      · by_cases h3 : (isRateLimited now m (jsToLower (b.email.getD ""))).1 = true
        · left; simp [handleWaitlist, h1, h2, h3]
        · by_cases h4 : validRoles.contains (b.role.getD "") = true
          · rw [contains_true_iff] at h4
            by_cases h5 : (!envPresent env.notionToken ||
                !envPresent env.notionDatabaseId) = true
            · left; simp [handleWaitlist, h1, h2, h3, h4, h5]
            · right
              refine ⟨?_, b, rfl, ?_⟩ <;>
                simp [handleWaitlist, h1, h2, h3, h4, h5]
          · rw [Bool.not_eq_true, contains_false_iff] at h4
            left; simp [handleWaitlist, h1, h2, h3, h4]
      · left; simp [handleWaitlist, h1, h2]

/-- C5: the `catch` mapping is exactly: upstream 400 ↦ 400, 401 ↦ 500,
404 ↦ 500, 429 ↦ 429, any other status ↦ 500, timeout ↦ 408, no response
↦ 500; and when the handler reaches the remote call and it succeeds, the
response is the 200 success (`success = true`) message. -/
theorem upstream_outcome_mapping :
    (∀ d : String, upstreamResponse (.errorResponse 400 d) =
      ⟨400, false, "Invalid request format. Please try again."⟩) ∧
    (∀ d : String, upstreamResponse (.errorResponse 401 d) =
      ⟨500, false, "Server authentication error. Please contact support."⟩) ∧
    (∀ d : String, upstreamResponse (.errorResponse 404 d) =
      ⟨500, false, "Database configuration error. Please contact support."⟩) ∧
    (∀ d : String, upstreamResponse (.errorResponse 429 d) =
      ⟨429, false, "Server is busy. Please try again in a moment."⟩) ∧
    (∀ (st : Nat) (d : String), st ≠ 400 → st ≠ 401 → st ≠ 404 → st ≠ 429 →
      upstreamResponse (.errorResponse st d) =
        ⟨500, false, "Something went wrong. Please try again."⟩) ∧
    upstreamResponse .timeout =
      ⟨408, false, "Request timeout. Please try again."⟩ ∧
    upstreamResponse .noResponse =
      ⟨500, false,
        "Network error. Please check your connection and try again."⟩ ∧
    (upstreamResponse .success).success = true ∧
    (∀ (b : ReqBody) (env : Env) (m : Tracker) (now : Nat) (iso : String),
      ((handleWaitlist (some b) env m now iso .success).call).isSome = true →
      (handleWaitlist (some b) env m now iso .success).response =
        ⟨200, true, successMessage⟩) := by
  refine ⟨fun d => rfl, fun d => rfl, fun d => rfl, fun d => rfl,
    ?_, rfl, rfl, rfl, ?_⟩
  · intro st d h1 h2 h3 h4
    simp [upstreamResponse, h1, h2, h3, h4]
  · intro b env m now iso h
    rcases handleWaitlist_call_spec (some b) env m now iso .success with
      hnone | ⟨hresp, -⟩
    · rw [hnone] at h; simp at h
    · rw [hresp]; rfl

/-- C5 witness: an unlisted upstream status maps to the generic 500, and a
fully valid request with a successful upstream yields the 200 success. -/
theorem upstream_outcome_mapping_witness :
    upstreamResponse (.errorResponse 503 "overloaded") =
      ⟨500, false, "Something went wrong. Please try again."⟩ ∧
    (handleWaitlist (some ⟨some "a@b.c", some "Student / Learner"⟩)
        ⟨some "tok", some "db"⟩ [] 0 "2026-10-11T00:00:00.000Z"
        .success).response = ⟨200, true, successMessage⟩ :=
  ⟨upstream_outcome_mapping.2.2.2.2.1 503 "overloaded" (by decide) (by decide)
      (by decide) (by decide),
   upstream_outcome_mapping.2.2.2.2.2.2.2.2
      ⟨some "a@b.c", some "Student / Learner"⟩ ⟨some "tok", some "db"⟩ [] 0
      "2026-10-11T00:00:00.000Z" (by decide)⟩

/-- C6: the role check accepts exactly the four fixed strings, by
case-sensitive exact match, and every other role is rejected with the 400
InvalidRole response. -/
theorem role_validation :
    (∀ r : String, validRoles.contains r = true ↔
      (r = "Student / Learner" ∨ r = "Tutor / Teacher" ∨
        r = "School / Institute" ∨ r = "Developer / Researcher")) ∧
    (∀ (b : ReqBody) (env : Env) (m : Tracker) (now : Nat) (iso : String)
        (up : Upstream),
      truthy b.email = true → truthy b.role = true →
      validateEmail (b.email.getD "") = true →
      (isRateLimited now m (jsToLower (b.email.getD ""))).1 = false →
      validRoles.contains (b.role.getD "") = false →
      handleWaitlist (some b) env m now iso up =
        ⟨⟨400, false, "Invalid role selected"⟩,
          (isRateLimited now m (jsToLower (b.email.getD ""))).2, none⟩) := by
  constructor
  · intro r
    rw [contains_true_iff]
    simp [validRoles]
  · intro b env m now iso up h1 h2 h3 h4 h5
    rw [contains_false_iff] at h5
    simp [handleWaitlist, h1, h2, h3, h4, h5]

/-- C6 witness: a lower-cased variant of a valid role is rejected. -/
theorem role_validation_witness :
    handleWaitlist (some ⟨some "a@b.c", some "student / learner"⟩)
        ⟨some "tok", some "db"⟩ [] 0 "" .success =
      ⟨⟨400, false, "Invalid role selected"⟩,
        (isRateLimited 0 []
          (jsToLower ((⟨some "a@b.c", some "student / learner"⟩ :
            ReqBody).email.getD ""))).2, none⟩ :=
  role_validation.2 ⟨some "a@b.c", some "student / learner"⟩
    ⟨some "tok", some "db"⟩ [] 0 "" .success
    (by decide) (by decide) (by decide) (by decide) (by decide)

theorem takeWhile_append_stop {p : Char → Bool} :
    ∀ (a : List Char) (x : Char) (b : List Char),
      (∀ c ∈ a, p c = true) → p x = false →
      (a ++ x :: b).takeWhile p = a
  | [], x, b, _, hx => by simp [List.takeWhile_cons, hx]
  | y :: a, x, b, h, hx => by
    have hy := h y (List.mem_cons_self y a)
    simp only [List.cons_append, List.takeWhile_cons, hy, if_true]
    rw [takeWhile_append_stop a x b
      (fun c hc => h c (List.mem_cons_of_mem y hc)) hx]

/-- C7: every remote call the handler makes carries the payload whose title
field and email field are the submitted email, whose single-select field is
the submitted role, whose date field is the date part of the clock's ISO
string, and whose timeout is 10000 ms; and the date part of an ISO string
`d ++ "T" ++ time` is exactly `d`, with no time component. -/
theorem ledger_payload_shape :
    (∀ (body : Option ReqBody) (env : Env) (m : Tracker) (now : Nat)
        (iso : String) (up : Upstream) (req : NotionRequest),
      (handleWaitlist body env m now iso up).call = some req →
      ∃ b : ReqBody, body = some b ∧
        req = ⟨env.notionDatabaseId.getD "",
          ⟨b.email.getD "", b.email.getD "", b.role.getD "", isoDatePart iso⟩,
          10000⟩) ∧
    (∀ d r : String, (∀ c ∈ d.data, c ≠ 'T') →
      isoDatePart (d ++ "T" ++ r) = d) := by
  constructor
  · intro body env m now iso up req h
    rcases handleWaitlist_call_spec body env m now iso up with
      hnone | ⟨-, b, hb, hcall⟩
    · rw [hnone] at h; exact absurd h (by simp)
    · rw [hcall] at h
      exact ⟨b, hb, (Option.some_injective _ h).symm⟩
  · intro d r h
    unfold isoDatePart
    have hdata : (d ++ "T" ++ r).data = d.data ++ 'T' :: r.data := by
      have h1 : ("T" : String).data = ['T'] := rfl
      simp [h1]
    have ha : ∀ c ∈ d.data, (fun c => decide (c ≠ 'T')) c = true := by
      intro c hc
      simp [h c hc]
    rw [hdata, takeWhile_append_stop d.data 'T' r.data ha (by simp)]

/-- C7 witness: a concrete valid submission produces the payload with both
email fields, the role, the date `2026-10-11` and the 10 s timeout. -/
theorem ledger_payload_shape_witness :
    (∃ b : ReqBody,
      (some (⟨some "a@b.c", some "Student / Learner"⟩ : ReqBody) :
          Option ReqBody) = some b ∧
      (⟨"db", ⟨"a@b.c", "a@b.c", "Student / Learner", "2026-10-11"⟩,
          10000⟩ : NotionRequest) =
        ⟨((⟨some "tok", some "db"⟩ : Env)).notionDatabaseId.getD "",
          ⟨b.email.getD "", b.email.getD "", b.role.getD "",
            isoDatePart "2026-10-11T00:00:00.000Z"⟩, 10000⟩) ∧
    isoDatePart ("2026-10-11" ++ "T" ++ "00:00:00.000Z") = "2026-10-11" :=
  ⟨ledger_payload_shape.1 (some ⟨some "a@b.c", some "Student / Learner"⟩)
      ⟨some "tok", some "db"⟩ [] 0 "2026-10-11T00:00:00.000Z" .success
      ⟨"db", ⟨"a@b.c", "a@b.c", "Student / Learner", "2026-10-11"⟩, 10000⟩
      (by decide),
   ledger_payload_shape.2 "2026-10-11" "00:00:00.000Z" (by decide)⟩

/-- C8: the client-facing error responses are drawn from a fixed finite set
of constant messages independent of the upstream error body: two runs whose
upstream failures share a status code but differ in body produce identical
handler results, and every unsuccessful response's message is in the
constant list. -/
theorem sanitized_error_messages :
    (∀ (body : Option ReqBody) (env : Env) (m : Tracker) (now : Nat)
        (iso : String) (st : Nat) (d1 d2 : String),
      handleWaitlist body env m now iso (.errorResponse st d1) =
        handleWaitlist body env m now iso (.errorResponse st d2)) ∧
    (∀ (body : Option ReqBody) (env : Env) (m : Tracker) (now : Nat)
        (iso : String) (up : Upstream),
      (handleWaitlist body env m now iso up).response.success = false →
      (handleWaitlist body env m now iso up).response.message ∈
        (["Network error. Please check your connection and try again.",
          "Email and role are required",
          "Please enter a valid email address",
          "Too many submissions. Please try again later.",
          "Invalid role selected",
          "Server configuration error. Please contact support.",
          "Invalid request format. Please try again.",
          "Server authentication error. Please contact support.",
          "Database configuration error. Please contact support.",
          "Server is busy. Please try again in a moment.",
          "Something went wrong. Please try again.",
          "Request timeout. Please try again."] : List String)) := by
  constructor
  · intro body env m now iso st d1 d2
    cases body with
    | none => rfl
    | some b =>
      by_cases h1 : (!truthy b.email || !truthy b.role) = true
      · simp [handleWaitlist, h1]
      · by_cases h2 : validateEmail (b.email.getD "") = true
        · by_cases h3 :
              (isRateLimited now m (jsToLower (b.email.getD ""))).1 = true
          · simp [handleWaitlist, h1, h2, h3]
          · by_cases h4 : validRoles.contains (b.role.getD "") = true
            · rw [contains_true_iff] at h4
              by_cases h5 : (!envPresent env.notionToken ||
                  !envPresent env.notionDatabaseId) = true
              · simp [handleWaitlist, h1, h2, h3, h4, h5]
              · simp [handleWaitlist, h1, h2, h3, h4, h5, upstreamResponse]
            · rw [Bool.not_eq_true, contains_false_iff] at h4
              simp [handleWaitlist, h1, h2, h3, h4]
        · simp [handleWaitlist, h1, h2]
  · intro body env m now iso up h
    cases body with
    | none => simp [handleWaitlist]
    | some b =>
      by_cases h1 : (!truthy b.email || !truthy b.role) = true
      · simp [handleWaitlist, h1]
      · by_cases h2 : validateEmail (b.email.getD "") = true
        · by_cases h3 :
              (isRateLimited now m (jsToLower (b.email.getD ""))).1 = true
          · simp [handleWaitlist, h1, h2, h3]
          · by_cases h4 : validRoles.contains (b.role.getD "") = true
            · rw [contains_true_iff] at h4
              by_cases h5 : (!envPresent env.notionToken ||
                  !envPresent env.notionDatabaseId) = true
              · simp [handleWaitlist, h1, h2, h3, h4, h5]
              · simp only [handleWaitlist, h1, h2, h3, h4, h5] at h ⊢
                simp [h4] at h ⊢
                cases up with
                | success => simp [upstreamResponse, successMessage] at h
                | errorResponse st d =>
                  simp only [upstreamResponse]
                  split_ifs <;> simp
                | timeout => simp [upstreamResponse]
                | noResponse => simp [upstreamResponse]
            · rw [Bool.not_eq_true, contains_false_iff] at h4
              simp [handleWaitlist, h1, h2, h3, h4]
        · simp [handleWaitlist, h1, h2]

/-- C8 witness: an absent body yields an unsuccessful response whose message
is in the constant list. -/
theorem sanitized_error_messages_witness :
    (handleWaitlist none ⟨none, none⟩ [] 0 "" .success).response.message ∈
      (["Network error. Please check your connection and try again.",
        "Email and role are required",
        "Please enter a valid email address",
        "Too many submissions. Please try again later.",
        "Invalid role selected",
        "Server configuration error. Please contact support.",
        "Invalid request format. Please try again.",
        "Server authentication error. Please contact support.",
        "Database configuration error. Please contact support.",
        "Server is busy. Please try again in a moment.",
        "Something went wrong. Please try again.",
        "Request timeout. Please try again."] : List String) :=
  sanitized_error_messages.2 none ⟨none, none⟩ [] 0 "" .success (by decide)

theorem isRateLimited_false_effect {now : Nat} {m : Tracker} {email : String}
    (h : (isRateLimited now m email).1 = false) :
    getEntry email (isRateLimited now m email).2 =
      (match getEntry email m with
        | none => some ⟨1, now⟩
        | some e =>
          if now - e.firstSubmission > RATE_LIMIT_WINDOW then some ⟨1, now⟩
          else some ⟨e.count + 1, e.firstSubmission⟩) := by
  cases hget : getEntry email m with
  | none =>
    simp only [hget]
    rw [isRateLimited_none now hget]
    simp [getEntry_setEntry]
  | some e =>
    simp only [hget]
    rw [isRateLimited_some now hget] at h ⊢
    by_cases hw : now - e.firstSubmission > RATE_LIMIT_WINDOW
    · rw [if_pos hw, if_pos hw]
      simp [getEntry_setEntry]
    · rw [if_neg hw] at h ⊢
      rw [if_neg hw]
      by_cases hc : e.count ≥ MAX_SUBMISSIONS_PER_EMAIL
      · rw [if_pos hc] at h
        simp at h
      · rw [if_neg hc]
        simp [getEntry_setEntry]

/-- C9: every request that passes the missing-field and email-syntax checks
and is not already at the limit consumes a rate-limit slot — the handler's
final tracker is the limiter's updated map and the entry for the
lower-cased email is created, reset, or incremented — regardless of the
role value, the environment credentials, and the upstream outcome. -/
theorem rate_slot_consumed (b : ReqBody) (env : Env) (m : Tracker)
    (now : Nat) (iso : String) (up : Upstream)
    (he : truthy b.email = true) (hr : truthy b.role = true)
    (hv : validateEmail (b.email.getD "") = true)
    (hnl : (isRateLimited now m (jsToLower (b.email.getD ""))).1 = false) :
    (handleWaitlist (some b) env m now iso up).tracker =
      (isRateLimited now m (jsToLower (b.email.getD ""))).2 ∧
    getEntry (jsToLower (b.email.getD ""))
        (handleWaitlist (some b) env m now iso up).tracker =
      (match getEntry (jsToLower (b.email.getD "")) m with
        | none => some ⟨1, now⟩
        | some e =>
          if now - e.firstSubmission > RATE_LIMIT_WINDOW then some ⟨1, now⟩
          else some ⟨e.count + 1, e.firstSubmission⟩) := by
  have htr : (handleWaitlist (some b) env m now iso up).tracker =
      (isRateLimited now m (jsToLower (b.email.getD ""))).2 := by
    by_cases h4 : validRoles.contains (b.role.getD "") = true
    · rw [contains_true_iff] at h4
      by_cases h5 : (!envPresent env.notionToken ||
          !envPresent env.notionDatabaseId) = true
      · simp [handleWaitlist, he, hr, hv, hnl, h4, h5]
      · simp [handleWaitlist, he, hr, hv, hnl, h4, h5]
    · rw [Bool.not_eq_true, contains_false_iff] at h4
      simp [handleWaitlist, he, hr, hv, hnl, h4]
  refine ⟨htr, ?_⟩
  rw [htr]
  exact isRateLimited_false_effect hnl

/-- C9 witness: a syntactically valid email with a bogus role still creates
the rate-limit entry for the lower-cased email. -/
theorem rate_slot_consumed_witness :
    (handleWaitlist (some ⟨some "A@B.c", some "bogus"⟩) ⟨none, none⟩ [] 0 ""
        .success).tracker = (isRateLimited 0 [] "a@b.c").2 ∧
    getEntry "a@b.c"
        (handleWaitlist (some ⟨some "A@B.c", some "bogus"⟩) ⟨none, none⟩ [] 0
          "" .success).tracker = some ⟨1, 0⟩ :=
  rate_slot_consumed ⟨some "A@B.c", some "bogus"⟩ ⟨none, none⟩ [] 0 ""
    .success (by decide) (by decide) (by decide) (by decide)

end Waitlist
